import Mathlib

/-!
Verification of the authenticated data-fetching client of the trading
dashboard (frontend/src/store/api/api.ts).

The part of the client that lives in the repository is the request wrapper
`baseQueryWithRefresh` together with the header preparation of
`rawBaseQuery`; both are embedded here faithfully.  The transport is
modelled as an oracle: a list of responses consumed in issue order, with a
log of every issued request (its arguments and the header snapshot taken at
issue time).  `localStorage` is modelled as an explicit `Storage` record
threaded through the computation; the JavaScript coercion
`String(undefined)` performed by `localStorage.setItem` on a missing field
is modelled by `jsString`.

Cache-level behaviour (deduplication, tag invalidation, stale-while-error)
is implemented by the data-fetching library the repository calls into, not
by code under the repository itself; those parts are modelled from the
spec, each marked `Modelled from the spec:` in its doc comment.
-/

namespace TradingApi

/-- The three `localStorage` keys the client reads and writes:
`token`, `refreshToken`, `user`.  `none` models an absent key. -/
structure Storage where
  token : Option String
  refreshToken : Option String
  user : Option String
deriving DecidableEq, Repr

/-- A `FetchBaseQueryError`: either an HTTP error with a numeric status, or
a transport-level failure (whose `status` field is the string
`FETCH_ERROR`, never the number 401). -/
inductive QueryError where
  | http (status : Nat) (body : String)
  | fetchError (msg : String)
deriving DecidableEq, Repr

/-- `error.status === 401` of the source: true exactly for an HTTP error
with status 401. -/
def is401 : QueryError → Bool
  | .http s _ => s == 401
  | .fetchError _ => false

/-- The JSON body of a response as far as the wrapper inspects it: the
refresh endpoint's `access_token`, `refresh_token` and optional `user`
fields (each possibly absent), plus an opaque payload for every other
endpoint. -/
structure RespData where
  access_token : Option String
  refresh_token : Option String
  user : Option String
  payload : Option String
deriving DecidableEq, Repr

/-- A transport result as seen by the wrapper: `error` xor/and `data`,
mirroring the `{error?, data?}` shape of the base query's return value. -/
structure Resp where
  error : Option QueryError
  data : Option RespData
deriving DecidableEq, Repr

/-- Request arguments: url, method and a JSON-object body given as
key/value pairs (empty list: no body). -/
structure FetchArgs where
  url : String
  method : String
  body : List (String × String)
deriving DecidableEq, Repr

/-- A logged outgoing request: its arguments and the headers computed by
`prepareHeaders` from the storage snapshot taken at issue time. -/
structure Issued where
  args : FetchArgs
  headers : List (String × String)
deriving DecidableEq, Repr

/-- `Headers.set`: replace the value under `k` if it is present, otherwise
append the pair. -/
def setHeader (headers : List (String × String)) (k v : String) :
    List (String × String) :=
  if headers.any (fun p => p.1 == k) then
    headers.map (fun p => if p.1 == k then (k, v) else p)
  else
    headers ++ [(k, v)]

/-- `prepareHeaders` of `rawBaseQuery`: read `localStorage.getItem('token')`;
when present, set `authorization: Bearer <token>`; otherwise return the
headers unchanged. -/
def prepareHeaders (store : Storage) (headers : List (String × String)) :
    List (String × String) :=
  match store.token with
  | some t => setHeader headers "authorization" ("Bearer " ++ t)
  | none => headers

/-- The transport oracle: responses still to be delivered, in issue order,
and the log of issued requests. -/
structure Transport where
  pending : List Resp
  issued : List Issued
deriving DecidableEq, Repr

/-- Default when the oracle runs dry: a transport failure. -/
def noResponse : Resp := { error := some (.fetchError "FETCH_ERROR"), data := none }

/-- `rawBaseQuery`: issue the request with headers prepared from the current
storage, log it, and deliver the next pending response. -/
def rawBaseQuery (args : FetchArgs) (store : Storage) (t : Transport) :
    Resp × Transport :=
  (t.pending.headD noResponse,
   { pending := t.pending.tail,
     issued := t.issued ++ [⟨args, prepareHeaders store []⟩] })

/-- `String(x)` as performed by `localStorage.setItem` when handed a field
read off an untyped JSON value: an absent field stores the literal string
`undefined`. -/
def jsString : Option String → String
  | some s => s
  | none => "undefined"

/-- The request the wrapper constructs for the refresh call:
`POST /auth/refresh` with body `{refresh_token}`. -/
def refreshArgs (rt : String) : FetchArgs :=
  { url := "/auth/refresh", method := "POST", body := [("refresh_token", rt)] }

/-- `baseQueryWithRefresh`, line for line:
run the original request; if it failed with status 401 and a refresh token
is stored, `POST /auth/refresh` with body `{refresh_token}`; if the refresh
succeeded (`!error && data`), write the new `access_token` and
`refresh_token` (and `user`, when present — modelled as an opaque string,
always truthy when present) to storage and replay the original request once,
returning the replay's result unconditionally; if the refresh failed, remove
`token`, `refreshToken` and `user` from storage and return the original
result; otherwise return the original result. -/
def baseQueryWithRefresh (args : FetchArgs) (store : Storage) (t : Transport) :
    Resp × Storage × Transport :=
  let (result, t1) := rawBaseQuery args store t
  if (result.error.map is401).getD false then
    match store.refreshToken with
    | some rt =>
      let (refreshResult, t2) := rawBaseQuery (refreshArgs rt) store t1
      match refreshResult.error, refreshResult.data with
      | none, some d =>
        let store1 : Storage :=
          { token := some (jsString d.access_token)
            refreshToken := some (jsString d.refresh_token)
            user := match d.user with
                    | some u => some u
                    | none => store.user }
        let (result2, t3) := rawBaseQuery args store1 t2
        (result2, store1, t3)
      | _, _ =>
        (result, { token := none, refreshToken := none, user := none }, t2)
    | none => (result, store, t1)
  else
    (result, store, t1)

/-- Number of logged requests aimed at the refresh endpoint. -/
def countRefreshCalls (l : List Issued) : Nat :=
  (l.filter (fun i => i.args.url == "/auth/refresh")).length

/-- Number of logged requests carrying exactly the given arguments. -/
def countArgsCalls (args : FetchArgs) (l : List Issued) : Nat :=
  (l.filter (fun i => i.args == args)).length

end TradingApi

namespace TradingApi

/-! ### Interleaved executions of the wrapper

The wrapper is an async function; its `await` points (the original
request, the refresh call, the replay) are the suspension points of the
single-threaded event loop.  `stepProc` is `baseQueryWithRefresh` cut at
exactly those points: one step runs a process from one suspension point to
the next, atomically receiving the pending response and issuing the next
request.  `runSched` interleaves several such processes over the shared
storage and transport according to a schedule of process indices. -/

/-- Continuation state of one in-flight invocation of the wrapper, between
`await` points. -/
inductive PStage where
  | ready
  | waitOriginal
  | waitRefresh (original : Resp)
  | waitReplay
  | finished (result : Resp)
deriving DecidableEq, Repr

/-- State shared by all concurrent invocations: the `localStorage` contents
and the transport oracle. -/
structure Global where
  store : Storage
  pending : List Resp
  issued : List Issued
deriving DecidableEq, Repr

/-- Issue a request: log it with the header snapshot taken from the current
shared storage. -/
def issueCall (args : FetchArgs) (g : Global) : Global :=
  { g with issued := g.issued ++ [⟨args, prepareHeaders g.store []⟩] }

/-- Deliver the next pending response to the process being resumed. -/
def takeResponse (g : Global) : Resp × Global :=
  (g.pending.headD noResponse, { g with pending := g.pending.tail })

/-- One event-loop step of a single wrapper invocation: resume the process
at its suspension point, run the wrapper's code up to its next `await`
(mirroring `baseQueryWithRefresh` line for line), and suspend again. -/
def stepProc (args : FetchArgs) (p : PStage) (g : Global) : PStage × Global :=
  match p with
  | .ready => (.waitOriginal, issueCall args g)
  | .waitOriginal =>
    let (result, g1) := takeResponse g
    if (result.error.map is401).getD false then
      match g1.store.refreshToken with
      | some rt => (.waitRefresh result, issueCall (refreshArgs rt) g1)
      | none => (.finished result, g1)
    else
      (.finished result, g1)
  | .waitRefresh original =>
    let (refreshResult, g1) := takeResponse g
    match refreshResult.error, refreshResult.data with
    | none, some d =>
      let store1 : Storage :=
        { token := some (jsString d.access_token)
          refreshToken := some (jsString d.refresh_token)
          user := match d.user with
                  | some u => some u
                  | none => g1.store.user }
      (.waitReplay, issueCall args { g1 with store := store1 })
    | _, _ =>
      (.finished original, { g1 with store := ⟨none, none, none⟩ })
  | .waitReplay =>
    let (result2, g1) := takeResponse g
    (.finished result2, g1)
  | .finished r => (.finished r, g)

/-- Run a list of concurrent wrapper invocations under a schedule: each
schedule entry names the process that the event loop resumes next. -/
def runSched (procs : List (FetchArgs × PStage)) (g : Global) :
    List Nat → List (FetchArgs × PStage) × Global
  | [] => (procs, g)
  | i :: sched =>
    match procs[i]? with
    | some (a, p) =>
      let (p1, g1) := stepProc a p g
      runSched (procs.set i (a, p1)) g1 sched
    | none => runSched procs g sched

/-- A 401 response with the given body. -/
def mk401 (body : String) : Resp := ⟨some (.http 401 body), none⟩

/-- A successful refresh response `{access_token, refresh_token}`. -/
def mkRefreshOk (a r : String) : Resp := ⟨none, some ⟨some a, some r, none, none⟩⟩

/-- A successful data response with an opaque payload. -/
def mkOk (s : String) : Resp := ⟨none, some ⟨none, none, none, some s⟩⟩

/-- The schedule in which two invocations overlap maximally: both issue
their original request, then each is resumed in turn at every later
suspension point. -/
def overlapSched : List Nat := [0, 1, 0, 1, 0, 1, 0, 1]

/-- Faithfulness of the step semantics: a single invocation, stepped alone
to completion, finishes with exactly the result, storage and request log of
the sequential `baseQueryWithRefresh`. -/
theorem runSched_single_faithful (args : FetchArgs) (store : Storage) (rs : List Resp) :
    (runSched [(args, .ready)] ⟨store, rs, []⟩ [0, 0, 0, 0]).1 =
      [(args, .finished (baseQueryWithRefresh args store ⟨rs, []⟩).1)] ∧
    (runSched [(args, .ready)] ⟨store, rs, []⟩ [0, 0, 0, 0]).2.store =
      (baseQueryWithRefresh args store ⟨rs, []⟩).2.1 ∧
    (runSched [(args, .ready)] ⟨store, rs, []⟩ [0, 0, 0, 0]).2.issued =
      (baseQueryWithRefresh args store ⟨rs, []⟩).2.2.issued := by
  rcases rs with _ | ⟨r1, rs1⟩
  · simp [runSched, stepProc, issueCall, takeResponse, baseQueryWithRefresh,
          rawBaseQuery, noResponse, is401]
  cases hb1 : (r1.error.map is401).getD false
  · simp [runSched, stepProc, issueCall, takeResponse, baseQueryWithRefresh,
          rawBaseQuery, hb1]
  rcases hrt : store.refreshToken with _ | rt
  · simp [runSched, stepProc, issueCall, takeResponse, baseQueryWithRefresh,
          rawBaseQuery, hb1, hrt]
  rcases rs1 with _ | ⟨r2, rs2⟩
  · simp [runSched, stepProc, issueCall, takeResponse, baseQueryWithRefresh,
          rawBaseQuery, noResponse, hb1, hrt]
  rcases he2 : r2.error with _ | e2
  · rcases hd2 : r2.data with _ | d2
    · simp [runSched, stepProc, issueCall, takeResponse, baseQueryWithRefresh,
            rawBaseQuery, hb1, hrt, he2, hd2]
    · rcases rs2 with _ | ⟨r3, rs3⟩ <;>
        simp [runSched, stepProc, issueCall, takeResponse, baseQueryWithRefresh,
              rawBaseQuery, noResponse, hb1, hrt, he2, hd2]
  · simp [runSched, stepProc, issueCall, takeResponse, baseQueryWithRefresh,
          rawBaseQuery, hb1, hrt, he2]

end TradingApi

namespace TradingApi

/-! ### Cache layer, modelled from the spec

The deduplicating Query Executor and the Cache Store are implemented by the
data-fetching library (`createApi`) the repository configures, not by code
under the repository itself; the definitions below model them from the
spec. -/

/-- Modelled from the spec: the `status` field of a CacheEntry
(`idle|loading|success|error`, §3); the implementation is the library's
cache slice, absent from the repository source. -/
inductive EntryStatus where
  | idle
  | loading
  | success
  | error
deriving DecidableEq, Repr

/-- Modelled from the spec: a CacheEntry (§3) — status, data, error,
declared tags and a staleness mark; the implementation is the library's
cache slice, absent from the repository source. -/
structure CacheEntry where
  status : EntryStatus
  data : Option String
  errorMsg : Option String
  tags : List String
  stale : Bool
deriving DecidableEq, Repr

/-- Modelled from the spec: the effect of `invalidate(tags)` on one keyed
entry (§4.1) — an entry declaring any of the given tags is marked stale
with nothing else changed, every other entry is left untouched; the
implementation is the library's invalidation machinery, absent from the
repository source. -/
def invalidateEntry (tags : List String) (kv : String × CacheEntry) :
    String × CacheEntry :=
  if kv.2.tags.any (fun tg => tags.contains tg) then
    (kv.1, { kv.2 with stale := true })
  else
    kv

/-- Modelled from the spec: `invalidate(tags)` over the whole cache (§4.1),
applied pointwise; data is never deleted synchronously. -/
def invalidate (tags : List String) (cache : List (String × CacheEntry)) :
    List (String × CacheEntry) :=
  cache.map (invalidateEntry tags)

/-- Modelled from the spec: an explicit refetch takes an entry back to
`loading` without touching its data (§3, §4.1). -/
def startRefetch (e : CacheEntry) : CacheEntry :=
  { e with status := .loading }

/-- Modelled from the spec: a terminal refetch failure marks the entry
`error` and records the error while preserving the previous data
(stale-but-available, §4.3 step 3). -/
def settleFailure (err : String) (e : CacheEntry) : CacheEntry :=
  { e with status := .error, errorMsg := some err }

/-- Modelled from the spec: the Query Executor's dedup state (§3, §4.3) —
the set of keys with an InFlightRequest and the log of network calls
actually issued; the implementation is the library's request lifecycle,
absent from the repository source. -/
structure ExecState where
  inFlight : List String
  networkCalls : List String
deriving DecidableEq, Repr

/-- Modelled from the spec: `fetch(key)` (§4.3) — if an InFlightRequest
exists for the key, attach to it and issue nothing; otherwise record the
key in flight and issue one network call. -/
def fetchDedup (key : String) (s : ExecState) : ExecState :=
  if key ∈ s.inFlight then s
  else ⟨key :: s.inFlight, s.networkCalls ++ [key]⟩

/-- Modelled from the spec: N concurrent subscriptions arriving while the
request is in flight — each performs `fetch` in turn before the call
settles. -/
def subscribeMany (keys : List String) (s : ExecState) : ExecState :=
  keys.foldl (fun st k => fetchDedup k st) s

theorem fetchDedup_of_mem (key : String) (s : ExecState) (h : key ∈ s.inFlight) :
    fetchDedup key s = s := by
  simp [fetchDedup, h]

theorem fetchDedup_mem (key : String) (s : ExecState) :
    key ∈ (fetchDedup key s).inFlight := by
  by_cases h : key ∈ s.inFlight <;> simp [fetchDedup, h]

theorem subscribeMany_of_mem (key : String) (n : Nat) (s : ExecState)
    (h : key ∈ s.inFlight) :
    subscribeMany (List.replicate n key) s = s := by
  induction n with
  | zero => rfl
  | succ n ih =>
    simp only [List.replicate_succ, subscribeMany, List.foldl_cons,
               fetchDedup_of_mem key s h]
    exact ih

theorem fetchDedup_nodup (key : String) (s : ExecState) (h : s.inFlight.Nodup) :
    (fetchDedup key s).inFlight.Nodup := by
  by_cases hk : key ∈ s.inFlight <;> simp [fetchDedup, hk, h]

end TradingApi

namespace TradingApi

/-- C1: the claim says that when two concurrent requests each observe a
401, exactly one refresh call is issued system-wide.  Counterexample: in
the maximally overlapping schedule, two invocations both observe a 401
before either refresh resolves, and the request log then contains two
calls to `/auth/refresh`, not one — the wrapper has no single-flight
coordination. -/
theorem c1_two_observers_issue_two_refreshes :
    (runSched
        [(⟨"/strategies", "GET", []⟩, .ready), (⟨"/strategies/backtests", "GET", []⟩, .ready)]
        ⟨⟨some "A1", some "R1", none⟩,
         [mk401 "Unauthorized", mk401 "Unauthorized",
          mkRefreshOk "A2" "R2", mkRefreshOk "A3" "R3", mkOk "d1", mkOk "d2"], []⟩
        overlapSched).1 =
      [(⟨"/strategies", "GET", []⟩, .finished (mkOk "d1")),
       (⟨"/strategies/backtests", "GET", []⟩, .finished (mkOk "d2"))] ∧
    countRefreshCalls
      (runSched
        [(⟨"/strategies", "GET", []⟩, .ready), (⟨"/strategies/backtests", "GET", []⟩, .ready)]
        ⟨⟨some "A1", some "R1", none⟩,
         [mk401 "Unauthorized", mk401 "Unauthorized",
          mkRefreshOk "A2" "R2", mkRefreshOk "A3" "R3", mkOk "d1", mkOk "d2"], []⟩
        overlapSched).2.issued = 2 ∧
    countRefreshCalls
      (runSched
        [(⟨"/strategies", "GET", []⟩, .ready), (⟨"/strategies/backtests", "GET", []⟩, .ready)]
        ⟨⟨some "A1", some "R1", none⟩,
         [mk401 "Unauthorized", mk401 "Unauthorized",
          mkRefreshOk "A2" "R2", mkRefreshOk "A3" "R3", mkOk "d1", mkOk "d2"], []⟩
        overlapSched).2.issued ≠ 1 := by
  decide

/-- C1 (amended): there is no single-flight coordination — each of the two
concurrent requests that observes a 401 with a refresh token stored issues
its own `/auth/refresh` call, so two refresh calls are made in total; each
original request is still replayed exactly once, after its own refresh
resolves, and both invocations finish with their replay's response. -/
theorem c1_refresh_per_observer (args1 args2 : FetchArgs) (store : Storage)
    (rt b1 b2 a1 r1 a2 r2 : String) (d1 d2 : Resp)
    (hrt : store.refreshToken = some rt)
    (h1 : args1.url ≠ "/auth/refresh") (h2 : args2.url ≠ "/auth/refresh")
    (h12 : args1 ≠ args2) :
    countRefreshCalls
      (runSched [(args1, .ready), (args2, .ready)]
        ⟨store, [mk401 b1, mk401 b2, mkRefreshOk a1 r1, mkRefreshOk a2 r2, d1, d2], []⟩
        overlapSched).2.issued = 2 ∧
    countArgsCalls args1
      (runSched [(args1, .ready), (args2, .ready)]
        ⟨store, [mk401 b1, mk401 b2, mkRefreshOk a1 r1, mkRefreshOk a2 r2, d1, d2], []⟩
        overlapSched).2.issued = 2 ∧
    countArgsCalls args2
      (runSched [(args1, .ready), (args2, .ready)]
        ⟨store, [mk401 b1, mk401 b2, mkRefreshOk a1 r1, mkRefreshOk a2 r2, d1, d2], []⟩
        overlapSched).2.issued = 2 ∧
    (runSched [(args1, .ready), (args2, .ready)]
        ⟨store, [mk401 b1, mk401 b2, mkRefreshOk a1 r1, mkRefreshOk a2 r2, d1, d2], []⟩
        overlapSched).1 =
      [(args1, .finished d1), (args2, .finished d2)] := by
  have hb1 : (args1.url == "/auth/refresh") = false := by simpa using h1
  have hb2 : (args2.url == "/auth/refresh") = false := by simpa using h2
  have hne1 : (⟨"/auth/refresh", "POST", [("refresh_token", rt)]⟩ : FetchArgs) ≠ args1 := by
    intro he
    subst he
    exact h1 rfl
  have hne2 : (⟨"/auth/refresh", "POST", [("refresh_token", rt)]⟩ : FetchArgs) ≠ args2 := by
    intro he
    subst he
    exact h2 rfl
  have h21 : args2 ≠ args1 := fun he => h12 he.symm
  simp [runSched, stepProc, issueCall, takeResponse, overlapSched,
        mk401, mkRefreshOk, is401, hrt, refreshArgs,
        countRefreshCalls, countArgsCalls, beq_iff_eq,
        hb1, hb2, hne1, hne2, h12, h21]

/-- C1 (witness): the amended theorem applied at a concrete pair of
overlapping requests. -/
theorem c1_refresh_per_observer_witness :
    (⟨"/strategies", "GET", []⟩ : FetchArgs).url ≠ "/auth/refresh" ∧
    countRefreshCalls
      (runSched
        [(⟨"/strategies", "GET", []⟩, .ready), (⟨"/strategies/backtests", "GET", []⟩, .ready)]
        ⟨⟨some "A1", some "R1", none⟩,
         [mk401 "x", mk401 "y", mkRefreshOk "A2" "R2", mkRefreshOk "A3" "R3",
          mkOk "d1", mkOk "d2"], []⟩
        overlapSched).2.issued = 2 :=
  ⟨by decide,
   (c1_refresh_per_observer ⟨"/strategies", "GET", []⟩ ⟨"/strategies/backtests", "GET", []⟩
      ⟨some "A1", some "R1", none⟩ "R1" "x" "y" "A2" "R2" "A3" "R3" (mkOk "d1") (mkOk "d2")
      rfl (by decide) (by decide) (by decide)).1⟩

end TradingApi

namespace TradingApi

/-- C2: one invocation of the wrapper issues at most one refresh call and
at most two transport calls carrying the original arguments (the original
and at most one replay), never more than three transport calls in total;
and when a replay was issued (three calls logged), the wrapper returns the
replay's response unchanged — in particular a second 401 on the replay is
returned as a terminal error and triggers no second refresh. -/
theorem c2_at_most_one_refresh_one_retry (args : FetchArgs) (store : Storage)
    (rs : List Resp) (h : args.url ≠ "/auth/refresh") :
    countRefreshCalls (baseQueryWithRefresh args store ⟨rs, []⟩).2.2.issued ≤ 1 ∧
    countArgsCalls args (baseQueryWithRefresh args store ⟨rs, []⟩).2.2.issued ≤ 2 ∧
    (baseQueryWithRefresh args store ⟨rs, []⟩).2.2.issued.length ≤ 3 ∧
    ((baseQueryWithRefresh args store ⟨rs, []⟩).2.2.issued.length = 3 →
      (baseQueryWithRefresh args store ⟨rs, []⟩).1 = (rs.drop 2).headD noResponse) := by
  have hb : (args.url == "/auth/refresh") = false := by
    simpa using h
  rcases rs with _ | ⟨r1, rs1⟩
  · simp [baseQueryWithRefresh, rawBaseQuery, countRefreshCalls, countArgsCalls,
          noResponse, is401, hb]
  cases hb1 : (r1.error.map is401).getD false
  · simp [baseQueryWithRefresh, rawBaseQuery, countRefreshCalls, countArgsCalls, hb, hb1]
  rcases hrt : store.refreshToken with _ | rt
  · simp [baseQueryWithRefresh, rawBaseQuery, countRefreshCalls, countArgsCalls, hb, hb1, hrt]
  have hne : (⟨"/auth/refresh", "POST", [("refresh_token", rt)]⟩ : FetchArgs) ≠ args := by
    intro he
    subst he
    exact h rfl
  rcases rs1 with _ | ⟨r2, rs2⟩
  · simp [baseQueryWithRefresh, rawBaseQuery, countRefreshCalls, countArgsCalls,
          noResponse, hb, hb1, hrt, refreshArgs, beq_iff_eq, hne]
  rcases he2 : r2.error with _ | e2
  · rcases hd2 : r2.data with _ | d2
    · simp [baseQueryWithRefresh, rawBaseQuery, countRefreshCalls, countArgsCalls,
            hb, hb1, hrt, he2, hd2, refreshArgs, beq_iff_eq, hne]
    · rcases rs2 with _ | ⟨r3, rs3⟩ <;>
        simp [baseQueryWithRefresh, rawBaseQuery, countRefreshCalls, countArgsCalls,
              hb, hb1, hrt, he2, hd2, refreshArgs, beq_iff_eq, hne]
  · simp [baseQueryWithRefresh, rawBaseQuery, countRefreshCalls, countArgsCalls,
          hb, hb1, hrt, he2, refreshArgs, beq_iff_eq, hne]

/-- C2 (witness): the bound applied to a run whose replay also returns 401
(original 401, successful refresh, 401 again). -/
theorem c2_at_most_one_refresh_one_retry_witness :
    (⟨"/strategies", "GET", []⟩ : FetchArgs).url ≠ "/auth/refresh" ∧
    countRefreshCalls
      (baseQueryWithRefresh ⟨"/strategies", "GET", []⟩ ⟨some "A1", some "R1", none⟩
        ⟨[mk401 "x", mkRefreshOk "A2" "R2", mk401 "y"], []⟩).2.2.issued ≤ 1 :=
  ⟨by decide,
   (c2_at_most_one_refresh_one_retry ⟨"/strategies", "GET", []⟩
      ⟨some "A1", some "R1", none⟩ [mk401 "x", mkRefreshOk "A2" "R2", mk401 "y"]
      (by decide)).1⟩

/-- C3: the claim says a failed refresh surfaces a distinct AuthFailed
error kind.  Counterexample: on a failed refresh the wrapper returns the
original 401 response unchanged — byte for byte the same value it returns
when no refresh is attempted at all (no refresh token stored), so no
distinct error kind marks the failed refresh. -/
theorem c3_refresh_failure_error_not_distinct :
    (baseQueryWithRefresh ⟨"/strategies", "GET", []⟩ ⟨some "A1", some "R1", none⟩
        ⟨[mk401 "Unauthorized", ⟨some (.http 400 "invalid refresh"), none⟩], []⟩).1 =
      mk401 "Unauthorized" ∧
    (baseQueryWithRefresh ⟨"/strategies", "GET", []⟩ ⟨some "A1", some "R1", none⟩
        ⟨[mk401 "Unauthorized", ⟨some (.http 400 "invalid refresh"), none⟩], []⟩).1 =
      (baseQueryWithRefresh ⟨"/strategies", "GET", []⟩ ⟨some "A1", none, none⟩
        ⟨[mk401 "Unauthorized"], []⟩).1 := by
  decide

/-- C3 (amended): when the refresh call fails (an error response, or a
response with no data), the persisted token state — access token, refresh
token and user — is cleared from storage, the original request is not
retried (exactly the original call and the refresh call are issued), and
the wrapper resolves with the original 401 response unchanged; the 401 is
distinguishable from a transport failure by its numeric status, but it is
not a distinct AuthFailed kind. -/
theorem c3_refresh_failure_clears_store_no_retry (args : FetchArgs) (store : Storage)
    (rt : String) (r1 r2 : Resp) (rest : List Resp)
    (hrt : store.refreshToken = some rt)
    (h401 : (r1.error.map is401).getD false = true)
    (hfail : r2.error ≠ none ∨ r2.data = none) :
    baseQueryWithRefresh args store ⟨r1 :: r2 :: rest, []⟩ =
      (r1, ⟨none, none, none⟩,
       ⟨rest, [⟨args, prepareHeaders store []⟩,
               ⟨refreshArgs rt, prepareHeaders store []⟩]⟩) := by
  rcases hfail with hfail | hfail
  · rcases he : r2.error with _ | e
    · exact absurd he hfail
    · simp [baseQueryWithRefresh, rawBaseQuery, h401, hrt, he]
  · rcases he : r2.error with _ | e <;>
      simp [baseQueryWithRefresh, rawBaseQuery, h401, hrt, he, hfail]

/-- C3 (witness): the amended theorem applied to a concrete failed
refresh. -/
theorem c3_refresh_failure_clears_store_no_retry_witness :
    (⟨some "A1", some "R1", none⟩ : Storage).refreshToken = some "R1" ∧
    baseQueryWithRefresh ⟨"/strategies", "GET", []⟩ ⟨some "A1", some "R1", none⟩
        ⟨[mk401 "Unauthorized", ⟨some (.http 400 "invalid refresh"), none⟩], []⟩ =
      (mk401 "Unauthorized", ⟨none, none, none⟩,
       ⟨[], [⟨⟨"/strategies", "GET", []⟩, prepareHeaders ⟨some "A1", some "R1", none⟩ []⟩,
             ⟨refreshArgs "R1", prepareHeaders ⟨some "A1", some "R1", none⟩ []⟩]⟩) :=
  ⟨rfl,
   c3_refresh_failure_clears_store_no_retry ⟨"/strategies", "GET", []⟩
     ⟨some "A1", some "R1", none⟩ "R1" (mk401 "Unauthorized")
     ⟨some (.http 400 "invalid refresh"), none⟩ [] rfl (by decide) (Or.inl (by decide))⟩

end TradingApi

namespace TradingApi

/-- C4: when a 401 is observed and a refresh token `rt` is stored, the
second logged call is `POST /auth/refresh` with body `{refresh_token: rt}`;
on a successful refresh response carrying `access_token` and
`refresh_token`, both are written to storage before the replay, and the
replayed request's header snapshot is `authorization: Bearer <new access
token>`; the wrapper returns the replay's response and the updated
storage. -/
theorem c4_refresh_request_shape_and_token_write (args : FetchArgs) (store : Storage)
    (rt a r : String) (r1 r2 r3 : Resp) (d : RespData) (rest : List Resp)
    (hrt : store.refreshToken = some rt)
    (h401 : (r1.error.map is401).getD false = true)
    (hok : r2.error = none) (hd : r2.data = some d)
    (ha : d.access_token = some a) (hr : d.refresh_token = some r) :
    baseQueryWithRefresh args store ⟨r1 :: r2 :: r3 :: rest, []⟩ =
      (r3,
       ⟨some a, some r, match d.user with | some u => some u | none => store.user⟩,
       ⟨rest, [⟨args, prepareHeaders store []⟩,
               ⟨⟨"/auth/refresh", "POST", [("refresh_token", rt)]⟩, prepareHeaders store []⟩,
               ⟨args, [("authorization", "Bearer " ++ a)]⟩]⟩) := by
  simp [baseQueryWithRefresh, rawBaseQuery, h401, hrt, hok, hd, ha, hr,
        jsString, prepareHeaders, setHeader, refreshArgs]

/-- C4 (witness): the refresh flow applied to a concrete successful
refresh. -/
theorem c4_refresh_request_shape_and_token_write_witness :
    (⟨some "A1", some "R1", none⟩ : Storage).refreshToken = some "R1" ∧
    baseQueryWithRefresh ⟨"/strategies", "GET", []⟩ ⟨some "A1", some "R1", none⟩
        ⟨[mk401 "Unauthorized", mkRefreshOk "A2" "R2", mkOk "d"], []⟩ =
      (mkOk "d",
       ⟨some "A2", some "R2", none⟩,
       ⟨[], [⟨⟨"/strategies", "GET", []⟩, prepareHeaders ⟨some "A1", some "R1", none⟩ []⟩,
             ⟨⟨"/auth/refresh", "POST", [("refresh_token", "R1")]⟩,
              prepareHeaders ⟨some "A1", some "R1", none⟩ []⟩,
             ⟨⟨"/strategies", "GET", []⟩, [("authorization", "Bearer " ++ "A2")]⟩]⟩) :=
  ⟨rfl,
   c4_refresh_request_shape_and_token_write ⟨"/strategies", "GET", []⟩
     ⟨some "A1", some "R1", none⟩ "R1" "A2" "R2" (mk401 "Unauthorized")
     (mkRefreshOk "A2" "R2") (mkOk "d") ⟨some "A2", some "R2", none, none⟩ []
     rfl (by decide) rfl rfl rfl rfl⟩

/-- C5: for any number n ≥ 1 of concurrent subscriptions with the same
key arriving while no request for that key is in flight, exactly one
network call for that key is issued (the log grows by one occurrence), the
key is afterwards in flight, and the at-most-one-in-flight-per-key
invariant (no duplicates in the in-flight set) is preserved. -/
theorem c5_dedup_single_network_call (s : ExecState) (key : String) (n : Nat)
    (hn : 1 ≤ n) (hkey : key ∉ s.inFlight) :
    (subscribeMany (List.replicate n key) s).networkCalls.count key
      = s.networkCalls.count key + 1 ∧
    key ∈ (subscribeMany (List.replicate n key) s).inFlight ∧
    (s.inFlight.Nodup → (subscribeMany (List.replicate n key) s).inFlight.Nodup) := by
  obtain ⟨m, rfl⟩ : ∃ m, n = m + 1 := ⟨n - 1, by omega⟩
  have hstep : fetchDedup key s = ⟨key :: s.inFlight, s.networkCalls ++ [key]⟩ := by
    simp [fetchDedup, hkey]
  have hrest : subscribeMany (List.replicate (m + 1) key) s = fetchDedup key s := by
    simp only [List.replicate_succ, subscribeMany, List.foldl_cons]
    exact subscribeMany_of_mem key m _ (by rw [hstep]; exact List.mem_cons_self _ _)
  refine ⟨?_, ?_, ?_⟩
  · rw [hrest, hstep]
    simp [List.count_append]
  · rw [hrest]
    exact fetchDedup_mem key s
  · intro hnd
    rw [hrest]
    exact fetchDedup_nodup key s hnd

/-- C5 (witness): three concurrent subscriptions to a fresh key issue one
network call. -/
theorem c5_dedup_single_network_call_witness :
    1 ≤ 3 ∧
    (subscribeMany (List.replicate 3 "getStrategies") ⟨[], []⟩).networkCalls.count
        "getStrategies" = ([] : List String).count "getStrategies" + 1 :=
  ⟨by decide,
   (c5_dedup_single_network_call ⟨[], []⟩ "getStrategies" 3 (by decide)
      (by decide)).1⟩

end TradingApi

namespace TradingApi

/-- C6: when the first transport result is a success or an error whose
status is not 401 (transport failure, non-401 4xx, 5xx), the wrapper
returns that result unchanged, leaves the storage untouched, and issues
exactly one transport call — no refresh, no automatic retry. -/
theorem c6_non_401_passthrough (args : FetchArgs) (store : Storage)
    (r1 : Resp) (rest : List Resp)
    (h : (r1.error.map is401).getD false = false) :
    baseQueryWithRefresh args store ⟨r1 :: rest, []⟩ =
      (r1, store, ⟨rest, [⟨args, prepareHeaders store []⟩]⟩) := by
  simp [baseQueryWithRefresh, rawBaseQuery, h]

/-- C6 (witness): a 500 response passes through untouched. -/
theorem c6_non_401_passthrough_witness :
    ((⟨some (.http 500 "boom"), none⟩ : Resp).error.map is401).getD false = false ∧
    baseQueryWithRefresh ⟨"/strategies", "GET", []⟩ ⟨some "A1", some "R1", none⟩
        ⟨[⟨some (.http 500 "boom"), none⟩], []⟩ =
      (⟨some (.http 500 "boom"), none⟩, ⟨some "A1", some "R1", none⟩,
       ⟨[], [⟨⟨"/strategies", "GET", []⟩, prepareHeaders ⟨some "A1", some "R1", none⟩ []⟩]⟩) :=
  ⟨by decide,
   c6_non_401_passthrough ⟨"/strategies", "GET", []⟩ ⟨some "A1", some "R1", none⟩
     ⟨some (.http 500 "boom"), none⟩ [] (by decide)⟩

/-- C7: invalidating a set of tags marks stale exactly the entries that
declare one of those tags — such an entry reappears with `stale := true`
and nothing else changed — while an entry declaring none of the tags
reappears entirely unchanged; and no entry's cached data is deleted: every
entry of the invalidated cache has the same key and data as an entry of the
original cache. -/
theorem c7_invalidate_tagged_only (tags : List String)
    (cache : List (String × CacheEntry)) (kv : String × CacheEntry)
    (hm : kv ∈ cache) :
    (kv.2.tags.any (fun tg => tags.contains tg) = true →
       (kv.1, { kv.2 with stale := true }) ∈ invalidate tags cache) ∧
    (kv.2.tags.any (fun tg => tags.contains tg) = false →
       kv ∈ invalidate tags cache) ∧
    (∀ kv2 ∈ invalidate tags cache, ∃ kv1 ∈ cache,
       kv2.1 = kv1.1 ∧ kv2.2.data = kv1.2.data) := by
  refine ⟨?_, ?_, ?_⟩
  · intro ht
    have heq : invalidateEntry tags kv = (kv.1, { kv.2 with stale := true }) := by
      simp only [invalidateEntry, ht, if_true]
    exact heq ▸ List.mem_map_of_mem (invalidateEntry tags) hm
  · intro ht
    have heq : invalidateEntry tags kv = kv := by
      simp only [invalidateEntry, ht, Bool.false_eq_true, if_false]
    exact heq ▸ List.mem_map_of_mem (invalidateEntry tags) hm
  · intro kv2 h2
    rcases List.mem_map.mp h2 with ⟨kv1, h1, rfl⟩
    refine ⟨kv1, h1, ?_, ?_⟩ <;>
      · simp only [invalidateEntry]
        split <;> rfl

/-- C7 (witness): with entry A tagged Strategy and entry B tagged Backtest,
invalidating Strategy marks A stale and leaves B, with its cached data,
untouched. -/
theorem c7_invalidate_tagged_only_witness :
    (("a", ⟨.success, some "dataA", none, ["Strategy"], false⟩) : String × CacheEntry) ∈
      [(("a" : String), (⟨.success, some "dataA", none, ["Strategy"], false⟩ : CacheEntry)),
       ("b", ⟨.success, some "dataB", none, ["Backtest"], false⟩)] ∧
    ("a", (⟨.success, some "dataA", none, ["Strategy"], true⟩ : CacheEntry)) ∈
      invalidate ["Strategy"]
        [("a", ⟨.success, some "dataA", none, ["Strategy"], false⟩),
         ("b", ⟨.success, some "dataB", none, ["Backtest"], false⟩)] ∧
    (("b", ⟨.success, some "dataB", none, ["Backtest"], false⟩) : String × CacheEntry) ∈
      invalidate ["Strategy"]
        [("a", ⟨.success, some "dataA", none, ["Strategy"], false⟩),
         ("b", ⟨.success, some "dataB", none, ["Backtest"], false⟩)] :=
  ⟨by decide,
   (c7_invalidate_tagged_only ["Strategy"]
      [("a", ⟨.success, some "dataA", none, ["Strategy"], false⟩),
       ("b", ⟨.success, some "dataB", none, ["Backtest"], false⟩)]
      ("a", ⟨.success, some "dataA", none, ["Strategy"], false⟩)
      (by decide)).1 (by decide),
   (c7_invalidate_tagged_only ["Strategy"]
      [("a", ⟨.success, some "dataA", none, ["Strategy"], false⟩),
       ("b", ⟨.success, some "dataB", none, ["Backtest"], false⟩)]
      ("b", ⟨.success, some "dataB", none, ["Backtest"], false⟩)
      (by decide)).2.1 (by decide)⟩

/-- C8: an entry holding data X from a previous success that is refetched
and settles in a terminal error still exposes data X alongside the new
error, with status `error` — the failing refetch does not clear the cached
data. -/
theorem c8_stale_while_error (e : CacheEntry) (x err : String)
    (hd : e.data = some x) :
    (settleFailure err (startRefetch e)).data = some x ∧
    (settleFailure err (startRefetch e)).status = .error ∧
    (settleFailure err (startRefetch e)).errorMsg = some err := by
  simp [settleFailure, startRefetch, hd]

/-- C8 (witness): a concrete successful entry keeps its data through a
failing refetch. -/
theorem c8_stale_while_error_witness :
    (⟨.success, some "X", none, ["Strategy"], false⟩ : CacheEntry).data = some "X" ∧
    (settleFailure "boom"
        (startRefetch ⟨.success, some "X", none, ["Strategy"], false⟩)).data = some "X" :=
  ⟨rfl,
   (c8_stale_while_error ⟨.success, some "X", none, ["Strategy"], false⟩ "X" "boom"
      rfl).1⟩

end TradingApi

namespace TradingApi

/-- C9: every outgoing request is logged with the headers computed by
`prepareHeaders` from the storage snapshot at issue time; when an access
token is stored the prepared headers carry `authorization: Bearer <token>`
(on the empty initial header set, exactly that one header), and when no
token is stored the headers are returned unchanged. -/
theorem c9_bearer_header (store : Storage) (hdrs : List (String × String))
    (args : FetchArgs) (t : Transport) :
    (rawBaseQuery args store t).2.issued =
      t.issued ++ [⟨args, prepareHeaders store []⟩] ∧
    (store.token = none → prepareHeaders store hdrs = hdrs) ∧
    (∀ tok, store.token = some tok →
       prepareHeaders store hdrs = setHeader hdrs "authorization" ("Bearer " ++ tok)) ∧
    (∀ tok, store.token = some tok →
       prepareHeaders store [] = [("authorization", "Bearer " ++ tok)]) := by
  refine ⟨rfl, ?_, ?_, ?_⟩
  · intro h
    simp [prepareHeaders, h]
  · intro tok h
    simp [prepareHeaders, h]
  · intro tok h
    simp [prepareHeaders, h, setHeader]

/-- C9 (witness): the header rules applied to a stored token and to an
empty store. -/
theorem c9_bearer_header_witness :
    (⟨some "A1", none, none⟩ : Storage).token = some "A1" ∧
    prepareHeaders ⟨some "A1", none, none⟩ [] =
      [("authorization", "Bearer " ++ "A1")] ∧
    prepareHeaders ⟨none, none, none⟩ [("accept", "application/json")] =
      [("accept", "application/json")] :=
  ⟨rfl,
   (c9_bearer_header ⟨some "A1", none, none⟩ [] ⟨"/strategies", "GET", []⟩
      ⟨[], []⟩).2.2.2 "A1" rfl,
   (c9_bearer_header ⟨none, none, none⟩ [("accept", "application/json")]
      ⟨"/strategies", "GET", []⟩ ⟨[], []⟩).2.1 rfl⟩

/-- C10: when the first transport result is a 401 but no refresh token is
stored, the wrapper makes no refresh call (exactly one request is logged),
leaves the storage unchanged, and returns the original 401 response as the
terminal outcome. -/
theorem c10_no_refresh_token_terminal_401 (args : FetchArgs) (store : Storage)
    (r1 : Resp) (rest : List Resp)
    (hrt : store.refreshToken = none)
    (h401 : (r1.error.map is401).getD false = true) :
    baseQueryWithRefresh args store ⟨r1 :: rest, []⟩ =
      (r1, store, ⟨rest, [⟨args, prepareHeaders store []⟩]⟩) := by
  simp [baseQueryWithRefresh, rawBaseQuery, h401, hrt]

/-- C10 (witness): a 401 with no stored refresh token passes through. -/
theorem c10_no_refresh_token_terminal_401_witness :
    (⟨some "A1", none, none⟩ : Storage).refreshToken = none ∧
    baseQueryWithRefresh ⟨"/strategies", "GET", []⟩ ⟨some "A1", none, none⟩
        ⟨[mk401 "Unauthorized"], []⟩ =
      (mk401 "Unauthorized", ⟨some "A1", none, none⟩,
       ⟨[], [⟨⟨"/strategies", "GET", []⟩, prepareHeaders ⟨some "A1", none, none⟩ []⟩]⟩) :=
  ⟨rfl,
   c10_no_refresh_token_terminal_401 ⟨"/strategies", "GET", []⟩ ⟨some "A1", none, none⟩
     (mk401 "Unauthorized") [] rfl (by decide)⟩

end TradingApi
